import Mathlib

/-
Verification of the nommo_vol_driver core (src/main.rs): the HID report
decoder (`NommoMsg::try_from`), the volume state model (`NommoVol::inc`,
`NommoVol::dec`), and the per-iteration dispatch of `handle_device`
together with `set_sink_volume` / `set_sink_mute`.

Bytes are modelled as `Nat` (the u8 range 0..=255 is stated explicitly
where the arithmetic depends on it); fallible operations return `Except`;
a Rust panic (an `.expect` or an arithmetic overflow in a debug build) is
modelled as an explicit fatal outcome rather than a normal return.
-/

deriving instance DecidableEq for Except

namespace NommoVolDriver

/-- Commands decoded from one 16-byte HID report (`enum NommoMsg`). -/
inductive NommoMsg where
  | VolUp
  | VolDown
  | EqValue (v : Nat)
  | Noop
  deriving DecidableEq

/-- A 16-byte input report, indexed access to its bytes. -/
abbrev Report := Fin 16 → Nat

/-- Embedding of `impl TryFrom<&[u8; 16]> for NommoMsg` (src/main.rs:17-31).
The Rust `match` tests the patterns in source order (first match wins):
`[1, 233, ..]`, `[1, 234, ..]`, `[5, 15, _, v, ..]`, `[1, 0, ..]`, and the
wildcard arm returns `Err` carrying the buffer. -/
def NommoMsg.tryFrom (b : Report) : Except (List Nat) NommoMsg :=
  if b 0 = 1 ∧ b 1 = 233 then .ok .VolUp
  else if b 0 = 1 ∧ b 1 = 234 then .ok .VolDown
  else if b 0 = 5 ∧ b 1 = 15 then .ok (.EqValue (b 3))
  else if b 0 = 1 ∧ b 1 = 0 then .ok .Noop
  else .error (List.ofFn b)

/-- Volume level of the active sink (`enum NommoVol`). -/
inductive NommoVol where
  | Value (v : Nat)
  | Muted
  deriving DecidableEq

/-- Embedding of `NommoVol::inc` (src/main.rs:40-51). The Rust code computes
`val + step` on `u8`; `none` models the arithmetic-overflow panic of a debug
build, which fires exactly when the mathematical sum exceeds 255. Otherwise
the guard `val + step > 100` clamps the result to `Value 100`. -/
def NommoVol.inc (l : NommoVol) (step : Nat) : Option NommoVol :=
  match l with
  | .Muted => some (.Value step)
  | .Value val =>
    if val + step > 255 then none
    else if val + step > 100 then some (.Value 100)
    else some (.Value (val + step))

/-- Embedding of `NommoVol::dec` (src/main.rs:53-64): `Muted` is left alone,
`Value val` collapses to `Muted` when `val <= step` and otherwise becomes
`Value (val - step)` (no u8 underflow is possible in that branch). -/
def NommoVol.dec (l : NommoVol) (step : Nat) : NommoVol :=
  match l with
  | .Muted => .Muted
  | .Value val => if val ≤ step then .Muted else .Value (val - step)

/-- `const VOL_STEP: u8 = 5` (src/main.rs:7). -/
def VOL_STEP : Nat := 5

/-- The VolumeLevel invariant: a concrete value is always in `[1,100]`. -/
def VolInv : NommoVol → Prop
  | .Muted => True
  | .Value v => 1 ≤ v ∧ v ≤ 100

instance : DecidablePred VolInv := fun l =>
  match l with
  | .Muted => Decidable.isTrue trivial
  | .Value v => inferInstanceAs (Decidable (1 ≤ v ∧ v ≤ 100))

/-- C3 counterexample: the claim quantifies over every step size, but for
`Value 100` and step 200 the u8 addition `val + step` overflows (300 > 255),
so `inc` panics instead of returning `Value (min 300 100) = Value 100`. -/
theorem inc_overflow_cex :
    NommoVol.inc (.Value 100) 200 = none ∧
    NommoVol.inc (.Value 100) 200 ≠ some (.Value 100) := by
  decide

/-- C3 (amended): when the u8 addition cannot overflow (`v + s ≤ 255`),
`inc` maps `Value v` with `v ∈ [1,100]` to `Value (min (v+s) 100)`, and it
maps `Muted` to `Value s` for every step; in particular with step 5,
`Value v` goes to `Value (v+5)` for `v ∈ [1,95]` and to `Value 100` for
`v ∈ [96,100]`. -/
theorem inc_spec :
    (∀ s, NommoVol.inc .Muted s = some (.Value s)) ∧
    (∀ v s, 1 ≤ v → v ≤ 100 → v + s ≤ 255 →
      NommoVol.inc (.Value v) s = some (.Value (min (v + s) 100))) ∧
    (∀ v, 1 ≤ v → v ≤ 95 →
      NommoVol.inc (.Value v) 5 = some (.Value (v + 5))) ∧
    (∀ v, 96 ≤ v → v ≤ 100 →
      NommoVol.inc (.Value v) 5 = some (.Value 100)) := by
  refine ⟨fun s => rfl, ?_, ?_, ?_⟩
  · intro v s h1 h2 h3
    simp only [NommoVol.inc]
    split
    · omega
    · split
      · have : min (v + s) 100 = 100 := by omega
        rw [this]
      · have : min (v + s) 100 = v + s := by omega
        rw [this]
  · intro v h1 h2
    simp only [NommoVol.inc]
    split
    · omega
    · split
      · omega
      · rfl
  · intro v h1 h2
    simp only [NommoVol.inc]
    split
    · omega
    · split
      · rfl
      · omega

/-- C3 witness: instantiating the amended statement at `Value 50`, step 5. -/
theorem inc_spec_w :
    NommoVol.inc (.Value 50) 5 = some (.Value (min (50 + 5) 100)) :=
  inc_spec.2.1 50 5 (by decide) (by decide) (by decide)

/-- C4: `dec` leaves `Muted` alone, collapses `Value v` to `Muted` when
`v ≤ s`, subtracts the step when `v > s`, and never produces a concrete
zero value. -/
theorem dec_spec :
    (∀ s, NommoVol.dec .Muted s = .Muted) ∧
    (∀ v s, v ≤ s → NommoVol.dec (.Value v) s = .Muted) ∧
    (∀ v s, s < v → NommoVol.dec (.Value v) s = .Value (v - s)) ∧
    (∀ v s, NommoVol.dec (.Value v) s ≠ .Value 0) := by
  refine ⟨fun s => rfl, ?_, ?_, ?_⟩
  · intro v s h
    simp only [NommoVol.dec]
    split
    · rfl
    · omega
  · intro v s h
    simp only [NommoVol.dec]
    split
    · omega
    · rfl
  · intro v s
    simp only [NommoVol.dec]
    split
    · intro h
      exact NommoVol.noConfusion h
    · intro h
      have := NommoVol.Value.inj h
      omega

/-- C4 witness: instantiating at `Value 3`, step 5 (floor collapse). -/
theorem dec_spec_w : NommoVol.dec (.Value 3) 5 = .Muted :=
  dec_spec.2.1 3 5 (by decide)

/-- C9: at the boundaries both transitions are idempotent: incrementing
`Value 100` by 5 yields `Value 100` twice in a row, and decrementing
`Muted` by 5 yields `Muted` twice in a row. -/
theorem boundary_idempotent :
    NommoVol.inc (.Value 100) 5 = some (.Value 100) ∧
    (NommoVol.inc (.Value 100) 5).bind (fun l => NommoVol.inc l 5) =
      some (.Value 100) ∧
    NommoVol.dec .Muted 5 = .Muted ∧
    NommoVol.dec (NommoVol.dec .Muted 5) 5 = .Muted := by
  decide

/-- C6: the invariant (`Value v` implies `v ∈ [1,100]`) is preserved by both
transitions for every step in `[1,100]`: `inc` never hits the overflow
branch and returns a level satisfying the invariant, and `dec` returns a
level satisfying the invariant. -/
theorem inv_preserved (l : NommoVol) (s : Nat) (hl : VolInv l)
    (hs1 : 1 ≤ s) (hs2 : s ≤ 100) :
    (l.inc s).elim False VolInv ∧ VolInv (l.dec s) := by
  cases l with
  | Muted =>
    constructor
    · simp only [NommoVol.inc, Option.elim, VolInv]
      omega
    · simp only [NommoVol.dec, VolInv]
  | Value v =>
    simp only [VolInv] at hl
    constructor
    · simp only [NommoVol.inc]
      split
      · omega
      · split <;> simp only [Option.elim, VolInv] <;> omega
    · simp only [NommoVol.dec]
      split
      · simp only [VolInv]
      · simp only [VolInv]
        omega

/-- C6 witness: instantiating at `Value 50`, step 5. -/
theorem inv_preserved_w :
    ((NommoVol.Value 50).inc 5).elim False VolInv ∧
    VolInv ((NommoVol.Value 50).dec 5) :=
  inv_preserved (.Value 50) 5 (by decide) (by decide) (by decide)

/-- C10: with step 5 the u8 addition inside `inc` cannot overflow for any
concrete value `v ≤ 100` (the overflow branch is unreachable under the
invariant), while it does overflow, and hence `inc` panics, for every
`v > 250`. -/
theorem inc_add_no_overflow :
    (∀ v, v ≤ 100 → (NommoVol.inc (.Value v) 5).isSome = true) ∧
    (∀ v, 250 < v → NommoVol.inc (.Value v) 5 = none) := by
  constructor
  · intro v h
    simp only [NommoVol.inc]
    split
    · omega
    · split <;> rfl
  · intro v h
    simp only [NommoVol.inc]
    split
    · rfl
    · omega

/-- C10 witness: instantiating at `Value 100` (no overflow at the invariant
ceiling). -/
theorem inc_add_no_overflow_w :
    (NommoVol.inc (.Value 100) 5).isSome = true :=
  inc_add_no_overflow.1 100 (by decide)

/-- A volume-up report: bytes `[1, 233, 0, ...]`. -/
def reportUp : Report := fun i => if i = 0 then 1 else if i = 1 then 233 else 0

/-- A volume-down report: bytes `[1, 234, 0, ...]`. -/
def reportDown : Report := fun i => if i = 0 then 1 else if i = 1 then 234 else 0

/-- An equalizer report: bytes `[5, 15, 0, 42, 0, ...]`. -/
def reportEq42 : Report :=
  fun i => if i = 0 then 5 else if i = 1 then 15 else if i = 3 then 42 else 0

/-- A no-op report: bytes `[1, 0, 0, ...]`. -/
def reportNoop : Report := fun i => if i = 0 then 1 else 0

/-- An unrecognized report: all sixteen bytes are 9. -/
def reportNine : Report := fun _ => 9

/-- C7: the decoder maps reports starting `[1, 233]` to `VolUp`, reports
starting `[1, 234]` to `VolDown`, and reports starting `[5, 15]` to
`EqValue` of the 4th byte; the three prefixes are disjoint, so the
first-match-wins order of the Rust `match` gives each arm its stated
meaning. -/
theorem tryFrom_prefixes (b : Report) :
    (b 0 = 1 → b 1 = 233 → NommoMsg.tryFrom b = .ok .VolUp) ∧
    (b 0 = 1 → b 1 = 234 → NommoMsg.tryFrom b = .ok .VolDown) ∧
    (b 0 = 5 → b 1 = 15 → NommoMsg.tryFrom b = .ok (.EqValue (b 3))) := by
  refine ⟨fun h0 h1 => ?_, fun h0 h1 => ?_, fun h0 h1 => ?_⟩ <;>
    simp [NommoMsg.tryFrom, h0, h1]

/-- C7 witness: instantiating at the concrete volume-up report. -/
theorem tryFrom_prefixes_w :
    NommoMsg.tryFrom reportUp = .ok .VolUp :=
  (tryFrom_prefixes reportUp).1 (by decide) (by decide)

/-- C1 counterexample: a report of all 9s matches none of the recognized
prefixes, and the decoder returns the `Err` of the wildcard arm rather than
`Noop`: decoding is not the total permissive function the claim states. -/
theorem tryFrom_unmatched_errors :
    NommoMsg.tryFrom reportNine =
      .error [9, 9, 9, 9, 9, 9, 9, 9, 9, 9, 9, 9, 9, 9, 9, 9] ∧
    NommoMsg.tryFrom reportNine ≠ .ok .Noop := by
  decide

/-- C1 (amended): the decoder returns `Noop` exactly for the `[1, 0, ..]`
prefix; a report matching none of the four recognized prefixes yields a
decode error carrying the raw buffer, never `Noop`. Decoding is total only
as a `Result`-valued function. -/
theorem tryFrom_noop_and_fallback (b : Report) :
    (b 0 = 1 → b 1 = 0 → NommoMsg.tryFrom b = .ok .Noop) ∧
    (¬(b 0 = 1 ∧ b 1 = 233) → ¬(b 0 = 1 ∧ b 1 = 234) →
      ¬(b 0 = 5 ∧ b 1 = 15) → ¬(b 0 = 1 ∧ b 1 = 0) →
      NommoMsg.tryFrom b = .error (List.ofFn b)) := by
  constructor
  · intro h0 h1
    simp [NommoMsg.tryFrom, h0, h1]
  · intro h1 h2 h3 h4
    simp only [NommoMsg.tryFrom, if_neg h1, if_neg h2, if_neg h3, if_neg h4]

/-- C1 witness: instantiating at the concrete `[1, 0, ...]` report. -/
theorem tryFrom_noop_and_fallback_w :
    NommoMsg.tryFrom reportNoop = .ok .Noop :=
  (tryFrom_noop_and_fallback reportNoop).1 (by decide) (by decide)

/-- One gateway interaction, as seen by the Audio Sink Gateway: the volume
read of `get_sink_volume`, the mute write of `set_sink_mute`, or the volume
write of `pactl set-sink-volume`. -/
inductive GwCall where
  | getVol
  | setMute (b : Bool)
  | applyVol (v : NommoVol)
  deriving DecidableEq

/-- The gateway's responses for one loop iteration: the result of the volume
read, of the mute write, and of the volume write (`()` for success). -/
structure Gw where
  getVolRes : Except Unit NommoVol
  setMuteRes : Except Unit Unit
  applyRes : Except Unit Unit

/-- Outcome of one iteration of the `loop` in `handle_device`: proceed to
the next blocking read, or die in an `.expect` panic with its message
(arithmetic overflow panics carry the runtime's message). -/
inductive Outcome where
  | next
  | fatal (msg : String)
  deriving DecidableEq

/-- Embedding of `set_sink_volume` (src/main.rs:140-150): it first calls
`set_sink_mute(sink, vol == Muted)` and, only if that succeeded, performs
the `pactl set-sink-volume` write. Returns the gateway calls made and the
overall result. -/
def setSinkVolume (g : Gw) (vol : NommoVol) : List GwCall × Except Unit Unit :=
  match g.setMuteRes with
  | .error e => ([.setMute (decide (vol = .Muted))], .error e)
  | .ok _ =>
    match g.applyRes with
    | .error e => ([.setMute (decide (vol = .Muted)), .applyVol vol], .error e)
    | .ok _ => ([.setMute (decide (vol = .Muted)), .applyVol vol], .ok ())

/-- Embedding of one iteration of the `loop` body of `handle_device`
(src/main.rs:152-171), after a successful device read: decode the buffer
(`.expect` panics on a decode error), read the current sink volume
(`.expect` panics on failure), then dispatch: `VolUp`/`VolDown` push the
stepped volume through `set_sink_volume` (`.expect` panics on failure),
every other command does nothing. Returns the gateway calls made and
whether the loop continues. -/
def handleDeviceIter (g : Gw) (b : Report) : List GwCall × Outcome :=
  match NommoMsg.tryFrom b with
  | .error _ => ([], .fatal "Cannot convert data")
  | .ok msg =>
    match g.getVolRes with
    | .error _ => ([GwCall.getVol], .fatal "Cannot get volume")
    | .ok currentVol =>
      match msg with
      | .VolUp =>
        match currentVol.inc VOL_STEP with
        | none => ([GwCall.getVol], .fatal "attempt to add with overflow")
        | some newVol =>
          let r := setSinkVolume g newVol
          (GwCall.getVol :: r.1,
            match r.2 with
            | .ok _ => .next
            | .error _ => .fatal "Cannot increase volume")
      | .VolDown =>
        let r := setSinkVolume g (currentVol.dec VOL_STEP)
        (GwCall.getVol :: r.1,
          match r.2 with
          | .ok _ => .next
          | .error _ => .fatal "Cannot decrease volume")
      | _ => ([GwCall.getVol], .next)

/-- A fully working gateway that reports the current level `v`. -/
def gwWith (v : NommoVol) : Gw := ⟨.ok v, .ok (), .ok ()⟩

/-- A gateway whose volume read fails (mute and volume writes would work). -/
def gwGetFail : Gw := ⟨.error (), .ok (), .ok ()⟩

/-- C2 counterexample: on a volume-up report with a failing volume read, the
iteration dies in the `.expect("Cannot get volume")` panic instead of
reporting the failure and continuing to the next report. -/
theorem gatewayFailure_kills_loop :
    handleDeviceIter gwGetFail reportUp =
      ([GwCall.getVol], .fatal "Cannot get volume") ∧
    (handleDeviceIter gwGetFail reportUp).2 ≠ Outcome.next := by
  decide

/-- C2 (amended): every gateway failure during a `VolUp`/`VolDown` iteration
(volume read, mute write, or volume write) is fatal: the `.expect` calls in
`handle_device` panic, so the loop never reaches the next report. -/
theorem gatewayFailure_fatal (g : Gw) (b : Report)
    (hmsg : NommoMsg.tryFrom b = .ok .VolUp ∨
      NommoMsg.tryFrom b = .ok .VolDown)
    (hfail : g.getVolRes = .error () ∨ g.setMuteRes = .error () ∨
      g.applyRes = .error ()) :
    (handleDeviceIter g b).2 ≠ Outcome.next := by
  obtain ⟨gv, sm, ap⟩ := g
  rcases gv with e | cur
  · rcases hmsg with h | h <;> simp [handleDeviceIter, h]
  · rcases sm with e1 | u1
    · rcases hmsg with h | h <;>
        rcases hinc : cur.inc VOL_STEP with _ | nv <;>
          simp [handleDeviceIter, setSinkVolume, h, hinc]
    · rcases ap with e2 | u2
      · rcases hmsg with h | h <;>
          rcases hinc : cur.inc VOL_STEP with _ | nv <;>
            simp [handleDeviceIter, setSinkVolume, h, hinc]
      · rcases hfail with hf | hf | hf <;> simp at hf

/-- C2 witness: instantiating the amended statement at the failing-read
gateway and a concrete volume-up report. -/
theorem gatewayFailure_fatal_w :
    (handleDeviceIter gwGetFail reportUp).2 ≠ Outcome.next :=
  gatewayFailure_fatal gwGetFail reportUp (Or.inl (by decide)) (Or.inl rfl)

/-- C5 counterexample: stepping `Value 97` up to `Value 100` (a concrete
level moving to a concrete level) still produces a mute call, because
`set_sink_volume` unconditionally calls `set_sink_mute(vol == Muted)` before
the volume write; the claim says no mute call is made. -/
theorem concrete_step_still_mutes :
    handleDeviceIter (gwWith (.Value 97)) reportUp =
      ([GwCall.getVol, GwCall.setMute false, GwCall.applyVol (.Value 100)],
        .next) ∧
    GwCall.setMute false ∈ (handleDeviceIter (gwWith (.Value 97)) reportUp).1 := by
  decide

/-- C5 (amended): on a `VolUp`/`VolDown` iteration with a working gateway,
the gateway receives exactly `set_mute(new = Muted)` followed by
`apply(new)` where `new` is the stepped level: `set_mute(true)` when the new
level is `Muted`, `set_mute(false)` when it is concrete — including a
concrete-to-concrete step such as `Value 97` to `Value 100`, which receives
`set_mute(false)` and `apply(Value 100)`. -/
theorem dispatch_mute_and_apply (g : Gw) (cur : NommoVol)
    (hm : g.setMuteRes = .ok ()) (ha : g.applyRes = .ok ())
    (hg : g.getVolRes = .ok cur) :
    (∀ nv, cur.inc VOL_STEP = some nv →
      handleDeviceIter g reportUp =
        ([GwCall.getVol, GwCall.setMute (decide (nv = .Muted)),
          GwCall.applyVol nv], .next)) ∧
    handleDeviceIter g reportDown =
      ([GwCall.getVol, GwCall.setMute (decide (cur.dec VOL_STEP = .Muted)),
        GwCall.applyVol (cur.dec VOL_STEP)], .next) := by
  have hup : NommoMsg.tryFrom reportUp = .ok .VolUp := by decide
  have hdn : NommoMsg.tryFrom reportDown = .ok .VolDown := by decide
  constructor
  · intro nv hinc
    simp [handleDeviceIter, setSinkVolume, hup, hg, hm, ha, hinc]
  · simp [handleDeviceIter, setSinkVolume, hdn, hg, hm, ha]

/-- C5 witness: instantiating the amended statement at `Value 3`, one
volume-down report: the gateway receives `set_mute(true)` and
`apply(Muted)`. -/
theorem dispatch_mute_and_apply_w :
    handleDeviceIter (gwWith (.Value 3)) reportDown =
      ([GwCall.getVol, GwCall.setMute true, GwCall.applyVol .Muted], .next) :=
  (dispatch_mute_and_apply (gwWith (.Value 3)) (.Value 3) rfl rfl rfl).2

/-- C8 counterexample: a `Noop` iteration with a working gateway still
performs a gateway interaction — `get_sink_volume` runs before the dispatch
`match`, so the volume read happens on every iteration; the claim says no
gateway interaction occurs. -/
theorem noop_still_reads_volume :
    handleDeviceIter (gwWith (.Value 50)) reportNoop =
      ([GwCall.getVol], .next) ∧
    (handleDeviceIter (gwWith (.Value 50)) reportNoop).1 ≠ ([] : List GwCall) := by
  decide

/-- C8 (amended): on a `Noop` or `EqValue` iteration whose volume read
succeeds, the gateway sees exactly the one volume read — no volume write
and no mute call — and the loop proceeds to the next report. -/
theorem noop_eq_no_write (g : Gw) (b : Report) (cur : NommoVol) (v : Nat)
    (hmsg : NommoMsg.tryFrom b = .ok .Noop ∨
      NommoMsg.tryFrom b = .ok (.EqValue v))
    (hg : g.getVolRes = .ok cur) :
    handleDeviceIter g b = ([GwCall.getVol], .next) := by
  rcases hmsg with h | h <;> simp [handleDeviceIter, h, hg]

/-- C8 witness: instantiating the amended statement at a concrete `Noop`
report and a working gateway. -/
theorem noop_eq_no_write_w :
    handleDeviceIter (gwWith (.Value 50)) reportNoop =
      ([GwCall.getVol], .next) :=
  noop_eq_no_write (gwWith (.Value 50)) reportNoop (.Value 50) 0
    (Or.inl (by decide)) rfl

end NommoVolDriver
